import Mathlib

/-!
Shallow embedding of the custom-authentication challenge protocol of the
offers-marketplace backend (src/lambdas/auth/define_auth_challenge.py,
create_auth_challenge.py, verify_auth_challenge.py, src/lambdas/common/phone.py,
src/lambdas/common/google.py, src/lambdas/http/auth_google.py).

Modelling conventions:
- JSON values are `JVal` with integer numerics (the protocol only ever writes
  integer timestamps and attempt counters into metadata).
- The outcome of the external `json.loads` on an opaque metadata string is
  represented by the `RawMeta` constructors (absent input, empty string,
  string that fails to parse, string parsing to a given `JVal`).
- Python exceptions are `Except PyErr`; the built-in `int(...)` coercion is
  `pyInt`, Python truthiness is `truthy`, Python `>=` between a decoded JSON
  value and an int is `pyGe` (raising TypeError on non-numeric operands).
- Environment configuration (`OTP_MAX_ATTEMPTS`, `OTP_TTL_SECONDS`,
  `SMS_DEV_ECHO`) and the current clock are passed as explicit arguments,
  and the randomly generated OTP string is an explicit argument of the
  Create handler, making every handler a pure function of its inputs.
-/

/-- A JSON value as produced by json.loads, with integer numerics. -/
inductive JVal where
  | null : JVal
  | bool (b : Bool) : JVal
  | num (n : Int) : JVal
  | str (s : String) : JVal
  | arr (xs : List JVal) : JVal
  | obj (fields : List (String × JVal)) : JVal

/-- Python truthiness of a decoded JSON value (None, False, 0, empty string,
empty list and empty dict are falsy). -/
def truthy : JVal → Bool
  | .null => false
  | .bool b => b
  | .num n => n != 0
  | .str s => !(s == "")
  | .arr xs => !xs.isEmpty
  | .obj fs => !fs.isEmpty

/-- Truthiness of the result of dict.get: an absent key is None, hence falsy. -/
def truthyOpt : Option JVal → Bool
  | none => false
  | some v => truthy v

/-- Dict lookup on the association list of a decoded JSON object. Python dicts
built by json.loads keep the last occurrence of a duplicated key, so lookup
scans left to right keeping the last match. -/
def getKey (fs : List (String × JVal)) (k : String) : Option JVal :=
  fs.foldl (fun acc p => if p.1 = k then some p.2 else acc) none

/-- Dict lookup in a string-valued dict (the Cognito private challenge
parameters are a str-to-str map). -/
def getS (fs : List (String × String)) (k : String) : Option String :=
  fs.foldl (fun acc p => if p.1 = k then some p.2 else acc) none

/-- Python exceptions that the embedded handlers can raise. -/
inductive PyErr where
  | typeError : PyErr
  | valueError : PyErr
  | runtimeError : PyErr
  | snsError : PyErr
deriving DecidableEq, Repr

/-- Value of a digit string, or none if any character is not an ASCII digit
(or the string is empty). Models the digit-run acceptance of Python int(str). -/
def digitsVal : List Char → Option Nat
  | [] => none
  | cs =>
    if cs.all Char.isDigit then
      some (cs.foldl (fun a c => a * 10 + (c.toNat - 48)) 0)
    else none

/-- Python int(s) on a string: strip whitespace, optional sign, digit run.
(The model omits the underscore digit separators Python additionally accepts;
none of the protocol code ever produces them.) -/
def parseIntStr (s : String) : Option Int :=
  match ((s.data.dropWhile Char.isWhitespace).reverse.dropWhile Char.isWhitespace).reverse with
  | '+' :: cs => (digitsVal cs).map Int.ofNat
  | '-' :: cs => (digitsVal cs).map (fun n => -(n : Int))
  | cs => (digitsVal cs).map Int.ofNat

/-- Python int(v) on a decoded JSON value: ints pass through, bools coerce to
0 or 1, strings must spell an integer (ValueError otherwise), and None, lists
and dicts raise TypeError. -/
def pyInt : JVal → Except PyErr Int
  | .num n => .ok n
  | .bool b => .ok (if b then 1 else 0)
  | .str s =>
    match parseIntStr s with
    | some n => .ok n
    | none => .error .valueError
  | .null => .error .typeError
  | .arr _ => .error .typeError
  | .obj _ => .error .typeError

/-- Python v >= m for a decoded JSON value v and an int m: defined for ints
and bools, TypeError for every other operand type. -/
def pyGe (v : JVal) (m : Int) : Except PyErr Bool :=
  match v with
  | .num n => .ok (decide (n ≥ m))
  | .bool b => .ok (decide ((if b then (1 : Int) else 0) ≥ m))
  | _ => .error .typeError

/-- The raw challengeMetadata slot of an attempt record, classified by the
outcome of json.loads on it: absent (None), the empty string, a non-empty
string that is not valid JSON, or a non-empty string parsing to v. -/
inductive RawMeta where
  | absent : RawMeta
  | emptyStr : RawMeta
  | malformed (s : String) : RawMeta
  | wellFormed (v : JVal) : RawMeta

/-- _parse_metadata (define_auth_challenge.py lines 20-29, and the identical
copies in create_auth_challenge.py and verify_auth_challenge.py): falsy input
(None or empty string) yields the empty dict, a JSONDecodeError yields the
empty dict, a JSON value that is not an object yields the empty dict, and a
JSON object yields its fields. -/
def parse_metadata : RawMeta → List (String × JVal)
  | .absent => []
  | .emptyStr => []
  | .malformed _ => []
  | .wellFormed (.obj fs) => fs
  | .wellFormed _ => []

/-- One entry of the Cognito session history: the opaque challengeMetadata
string and the optional challengeResult value of the record dict. -/
structure AttemptRecord where
  challengeMetadata : RawMeta
  challengeResult : Option JVal

/-- The response object written by the Define handler. -/
structure DefineResponse where
  issueTokens : Bool
  failAuthentication : Bool
  challengeName : Option String
deriving DecidableEq, Repr

/-- attempt_number = metadata.get("attempt") or len(session)
(define_auth_challenge.py line 53): the metadata attempt value when present
and truthy, else the length of the session history. -/
def attemptNumberOf (session : List AttemptRecord) (md : List (String × JVal)) : JVal :=
  match getKey md "attempt" with
  | some v => if truthy v then v else .num session.length
  | none => .num session.length

/-- handler of define_auth_challenge.py (lines 32-68) as a pure function of
the configured OTP_MAX_ATTEMPTS, the current unix time, and the session
history. Empty history issues a CUSTOM_CHALLENGE; a truthy challengeResult on
the last record issues tokens; then attempt_number >= max_attempts fails, a
truthy expired exp fails, and otherwise a CUSTOM_CHALLENGE continues. The
comparison of a non-numeric attempt value and the int coercion of a truthy
non-integer exp value raise, which the Except models. -/
def defineHandler (maxAttempts now : Int) (session : List AttemptRecord) :
    Except PyErr DefineResponse :=
  match session.getLast? with
  | none => .ok ⟨false, false, some "CUSTOM_CHALLENGE"⟩
  | some last =>
    if truthyOpt last.challengeResult then .ok ⟨true, false, none⟩
    else
      match pyGe (attemptNumberOf session (parse_metadata last.challengeMetadata)) maxAttempts with
      | .error e => .error e
      | .ok ge =>
        if ge then .ok ⟨false, true, none⟩
        else
          match getKey (parse_metadata last.challengeMetadata) "exp" with
          | none => .ok ⟨false, false, some "CUSTOM_CHALLENGE"⟩
          | some v =>
            if truthy v then
              match pyInt v with
              | .error e => .error e
              | .ok e =>
                if now > e then .ok ⟨false, true, none⟩
                else .ok ⟨false, false, some "CUSTOM_CHALLENGE"⟩
            else .ok ⟨false, false, some "CUSTOM_CHALLENGE"⟩

/-- Python str.strip(): drop whitespace from both ends of the string. -/
def pyStrip (s : String) : String :=
  ⟨((s.data.dropWhile Char.isWhitespace).reverse.dropWhile Char.isWhitespace).reverse⟩

/-- normalize of phone.py (lines 10-15): None passes through, any string is
stripped of surrounding whitespace. (Named normalizePhone here because
Mathlib already declares normalize.) -/
def normalizePhone : Option String → Option String
  | none => none
  | some s => some (pyStrip s)

/-- Python str(int), as used to build the private challenge parameters. -/
def intToStr (n : Int) : String := toString n

/-- The response object and the side effects of the Create handler at the
moment it terminates, normally or by raising: which response fields have been
written (privateChallengeParameters, the decoded content (exp, attempt) of
the encoded challengeMetadata string, publicChallengeParameters) and the list
of (phone, message) pairs published to SNS. -/
structure CreateState where
  privateChallengeParameters : Option (List (String × String))
  challengeMetadata : Option (Int × Int)
  publicChallengeParameters : Option (List (String × String))
  smsSent : List (String × String)
deriving DecidableEq, Repr

/-- The metadata dict of the last session entry, or the empty dict when the
session is empty (create_auth_challenge.py line 55). -/
def lastMetaOf (session : List AttemptRecord) : List (String × JVal) :=
  match session.getLast? with
  | some last => parse_metadata last.challengeMetadata
  | none => []

/-- handler of create_auth_challenge.py (lines 47-115) as a pure function.
Inputs: OTP_TTL_SECONDS, the current unix time, the SMS_DEV_ECHO flag, the
OTP produced by the secret generator, the session history, the raw
phone_number user attribute, and whether the SNS publish succeeds. Returns
the accumulated state together with the exception raised, if any. Order
mirrors the source: attempt_number = int(last_metadata.get("attempt", 0)) + 1
(which can raise on a malformed attempt value), then the private parameters,
metadata and public parameters are written into the response, and only then
is the phone number normalized and checked, followed by the SNS publish. -/
def createHandler (ttl now : Int) (devEcho : Bool) (otp : String)
    (session : List AttemptRecord) (phoneAttr : Option String) (snsOk : Bool) :
    CreateState × Option PyErr :=
  match pyInt ((getKey (lastMetaOf session) "attempt").getD (.num 0)) with
  | .error e => (⟨none, none, none, []⟩, some e)
  | .ok prev =>
    let attemptNumber := prev + 1
    let expiresAt := now + ttl
    let privateParams :=
      [("answer", otp), ("exp", intToStr expiresAt), ("attempt", intToStr attemptNumber)]
    let publicParams :=
      [("deliveryMedium", "SMS")] ++ (if devEcho then [("dev_otp", otp)] else [])
    let st : CreateState :=
      ⟨some privateParams, some (expiresAt, attemptNumber), some publicParams, []⟩
    match normalizePhone phoneAttr with
    | none => (st, some .runtimeError)
    | some p =>
      if p = "" then (st, some .runtimeError)
      else if snsOk then
        ({ st with smsSent := [(p, "Your Offers login code is " ++ otp)] }, none)
      else (st, some .snsError)

/-- exp_value = private_params.get("exp") or metadata.get("exp")
(verify_auth_challenge.py line 39): the private exp string when present and
non-empty, else the metadata exp value. -/
def effectiveExp (pp : List (String × String)) (md : List (String × JVal)) :
    Option JVal :=
  match getS pp "exp" with
  | some s => if s = "" then getKey md "exp" else some (.str s)
  | none => getKey md "exp"

/-- handler of verify_auth_challenge.py (lines 27-62) as a pure function of
the current unix time, the optional privateChallengeParameters dict, the raw
challengeMetadata, and the optional client answer; returns the answerCorrect
flag. The expected answer comes only from the private parameters; the int
coercion of the effective exp value is wrapped in try/except so a value that
does not coerce leaves expires_at as None; an expiry of 0 is falsy and skips
the expiry check; hmac.compare_digest on the two strings is equality. -/
def verifyHandler (now : Int) (privateParams : Option (List (String × String)))
    (challengeMetadata : RawMeta) (challengeAnswer : Option String) : Bool :=
  let pp := privateParams.getD []
  let md := parse_metadata challengeMetadata
  match getS pp "answer" with
  | none => false
  | some expected =>
    let expiredCheck : Bool :=
      match effectiveExp pp md with
      | none => false
      | some v =>
        if truthy v then
          match pyInt v with
          | .ok e => decide (e ≠ 0) && decide (now > e)
          | .error _ => false
        else false
    if expiredCheck then false
    else
      match challengeAnswer with
      | none => false
      | some provided => decide (expected = provided)

/-- An HTTP response as built by json_response and error_response of resp.py,
reduced to the status code and the JSON body value (the Content-Type header
and the serialization of the body are not modelled). -/
structure HttpResponse where
  statusCode : Int
  body : JVal

/-- error_response of resp.py (lines 34-37). -/
def errorResponse (message : String) (statusCode : Int) : HttpResponse :=
  ⟨statusCode, .obj [("error", .str message)]⟩

/-- The issuer allow-list check of google.py line 37: the iss claim must be
the string accounts.google.com or https://accounts.google.com; an absent or
non-string issuer is never allowed. -/
def issuerAllowed : Option JVal → Bool
  | some (.str s) => s = "accounts.google.com" || s = "https://accounts.google.com"
  | _ => false

/-- verify_id_token of google.py (lines 22-40) as a pure function. The call
to the external google-auth verify_oauth2_token (which checks signature,
expiry and audience) is represented by its outcome `oauthResult`: either the
ValueError message it raises or the claims dict it returns. An error value is
a raised GoogleTokenError carrying the given message. -/
def verify_id_token (token audience : String)
    (oauthResult : Except String (List (String × JVal))) :
    Except String (List (String × JVal)) :=
  if token = "" then .error "Missing token"
  else if audience = "" then .error "Missing audience"
  else
    match oauthResult with
    | .error msg => .error msg
    | .ok claims =>
      if issuerAllowed (getKey claims "iss") then .ok claims
      else .error "Invalid token issuer"

/-- The Cognito identity-provider calls that auth_google.py can perform
(through _ensure_google_user and the subsequent auth flow). -/
inductive CogCall where
  | adminGetUser : CogCall
  | signUp : CogCall
  | adminConfirmSignUp : CogCall
  | adminUpdateUserAttributes : CogCall
  | adminInitiateAuth : CogCall
  | adminRespondToAuthChallenge : CogCall
deriving DecidableEq, Repr

/-- handler of auth_google.py (lines 117-227) as a pure function, up to the
point where the Cognito client is created. Inputs: the outcome of
json.loads on the request body (`event.get("body") or "\x7b\x7d"`, so an
absent or empty body parses to the empty object), the three required
environment variables, and the outcome of the external Google token
verification. `cognitoPhase` stands for lines 148-227 of the source — the
username derivation `google:<sub>`, attribute normalization, and every
boto3 cognito-idp call (_ensure_google_user, admin_initiate_auth,
admin_respond_to_auth_challenge) together with the final response — and is
given the verified claims; it reports the HTTP response it produces and the
list of Cognito calls it performs. The handler reaches it only after the
token has been fully verified and the sub and email claims checked.
Exceptions that escape the handler (a non-dict JSON body making payload.get
raise AttributeError, a non-string truthy id_token making .strip() raise, a
missing environment variable raising RuntimeError) are the error case. -/
def authGoogleHandler
    (cognitoPhase : List (String × JVal) → HttpResponse × List CogCall)
    (body : RawMeta)
    (googleClientId userPoolId userPoolClientId : Option String)
    (oauthResult : Except String (List (String × JVal))) :
    Except PyErr (HttpResponse × List CogCall) :=
  match
    (match body with
     | .absent => .ok []
     | .emptyStr => .ok []
     | .malformed _ => .error PyErr.valueError
     | .wellFormed (.obj fs) => .ok fs
     | .wellFormed _ => .error PyErr.typeError : Except PyErr (List (String × JVal)))
  with
  | .error .valueError => .ok (errorResponse "Invalid JSON payload" 400, [])
  | .error e => .error e
  | .ok fields =>
    match
      (match getKey fields "id_token" with
       | none => .ok ""
       | some v =>
         if truthy v then
           match v with
           | .str s => .ok (pyStrip s)
           | _ => .error PyErr.typeError
         else .ok "" : Except PyErr String)
    with
    | .error e => .error e
    | .ok idToken =>
      if idToken = "" then .ok (errorResponse "id_token is required" 400, [])
      else
        match googleClientId with
        | none => .error .runtimeError
        | some gcid =>
          if gcid = "" then .error .runtimeError
          else
            match userPoolId with
            | none => .error .runtimeError
            | some upid =>
              if upid = "" then .error .runtimeError
              else
                match userPoolClientId with
                | none => .error .runtimeError
                | some cid =>
                  if cid = "" then .error .runtimeError
                  else
                    match verify_id_token idToken gcid oauthResult with
                    | .error _ => .ok (errorResponse "Invalid Google ID token" 401, [])
                    | .ok claims =>
                      if truthyOpt (getKey claims "sub") then
                        if truthyOpt (getKey claims "email") then
                          .ok (cognitoPhase claims)
                        else .ok (errorResponse "Google account email is required" 400, [])
                      else .ok (errorResponse "Invalid Google ID token" 401, [])

/-- An optional decoded metadata field that is either absent or a JSON
integer: the shape of the exp and attempt fields that the protocol itself
writes (create_auth_challenge.py lines 69-74). -/
def numOrAbsent (o : Option JVal) : Prop := o = none ∨ ∃ n : Int, o = some (JVal.num n)

/-- Claim C5: metadata decode is total — every input decodes to the empty
structure except a well-formed JSON object, which decodes to its own
fields; no input raises. -/
theorem C5_metadata_decode_total (r : RawMeta) :
    parse_metadata r = [] ∨
      ∃ fs, r = RawMeta.wellFormed (JVal.obj fs) ∧ parse_metadata r = fs := by
  cases r with
  | absent => exact Or.inl rfl
  | emptyStr => exact Or.inl rfl
  | malformed s => exact Or.inl rfl
  | wellFormed v =>
    cases v with
    | obj fs => exact Or.inr ⟨fs, rfl, rfl⟩
    | null => exact Or.inl rfl
    | bool b => exact Or.inl rfl
    | num n => exact Or.inl rfl
    | str s => exact Or.inl rfl
    | arr xs => exact Or.inl rfl

/-- Claim C1: in the Define stage, a non-empty session whose last record has
challengeResult true always issues tokens, whatever the metadata says — the
success check precedes the attempt-count and expiry checks. -/
theorem C1_success_before_exhaustion (maxAttempts now : Int)
    (session : List AttemptRecord) (last : AttemptRecord)
    (hlast : session.getLast? = some last)
    (hres : last.challengeResult = some (JVal.bool true)) :
    defineHandler maxAttempts now session = .ok ⟨true, false, none⟩ := by
  unfold defineHandler
  rw [hlast]
  simp [truthyOpt, hres, truthy]

/-- Witness for C1 at a concrete input on which the attempt count already
equals the maximum (5) and the expiry (1) lies in the past (now = 1000):
the success check still wins. -/
theorem C1_success_before_exhaustion_witness :
    defineHandler 5 1000
      [⟨RawMeta.wellFormed (JVal.obj [("attempt", JVal.num 5), ("exp", JVal.num 1)]),
        some (JVal.bool true)⟩] = .ok ⟨true, false, none⟩ :=
  C1_success_before_exhaustion 5 1000 _ _ rfl rfl

/-- Claim C10: whenever the Define handler completes without raising, its
response is exactly one of the three outcomes — issueTokens, fail, or a
CUSTOM_CHALLENGE continuation with both flags false; the two flags are never
both set and challengeName is present exactly when both flags are false. -/
theorem C10_define_exactly_one_outcome (maxAttempts now : Int)
    (session : List AttemptRecord) (r : DefineResponse)
    (h : defineHandler maxAttempts now session = .ok r) :
    r = ⟨true, false, none⟩ ∨ r = ⟨false, true, none⟩ ∨
      r = ⟨false, false, some "CUSTOM_CHALLENGE"⟩ := by
  unfold defineHandler at h
  repeat' split at h
  all_goals simp_all

/-- Witness for C10 at the empty session. -/
theorem C10_define_exactly_one_outcome_witness :
    (⟨false, false, some "CUSTOM_CHALLENGE"⟩ : DefineResponse) = ⟨true, false, none⟩ ∨
      (⟨false, false, some "CUSTOM_CHALLENGE"⟩ : DefineResponse) = ⟨false, true, none⟩ ∨
      (⟨false, false, some "CUSTOM_CHALLENGE"⟩ : DefineResponse) =
        ⟨false, false, some "CUSTOM_CHALLENGE"⟩ :=
  C10_define_exactly_one_outcome 5 100 [] _ rfl

/-- Claim C3: in the Define stage, when the last record carries no truthy
challengeResult and its metadata expiry (if present and truthy) is an
unexpired integer, with attempt_number resolving to the integer a (the
metadata attempt value, or the history length when attempt info is missing
or falsy), the handler fails exactly when a >= OTP_MAX_ATTEMPTS and
continues with a CUSTOM_CHALLENGE whenever a < OTP_MAX_ATTEMPTS. -/
theorem C3_fail_iff_attempts_exhausted (maxAttempts now : Int)
    (session : List AttemptRecord) (last : AttemptRecord) (a : Int)
    (hlast : session.getLast? = some last)
    (hres : truthyOpt last.challengeResult = false)
    (hatt : attemptNumberOf session (parse_metadata last.challengeMetadata) = JVal.num a)
    (hexp : ∀ v, getKey (parse_metadata last.challengeMetadata) "exp" = some v →
        truthy v = true → ∃ e, pyInt v = .ok e ∧ ¬ now > e) :
    (a ≥ maxAttempts → defineHandler maxAttempts now session = .ok ⟨false, true, none⟩) ∧
    (a < maxAttempts →
      defineHandler maxAttempts now session = .ok ⟨false, false, some "CUSTOM_CHALLENGE"⟩) := by
  constructor
  · intro hge
    unfold defineHandler
    rw [hlast]
    simp only [hres, Bool.false_eq_true, if_false, hatt, pyGe]
    simp [hge]
  · intro hlt
    unfold defineHandler
    rw [hlast]
    simp only [hres, Bool.false_eq_true, if_false, hatt, pyGe]
    have hnge : ¬ a ≥ maxAttempts := not_le.mpr hlt
    simp only [hnge, decide_eq_true_eq, if_false, decide_eq_false_iff_not]
    cases hk : getKey (parse_metadata last.challengeMetadata) "exp" with
    | none => simp [hnge]
    | some v =>
      cases htr : truthy v with
      | false => simp [hnge, htr]
      | true =>
        obtain ⟨e, hpe, hne⟩ := hexp v hk htr
        simp [hnge, htr, hpe, hne]

/-- Witness for C3 at a concrete exhausted input: OTP_MAX_ATTEMPTS = 5, last
metadata attempt = 5 with no expiry, no challengeResult — the handler fails. -/
theorem C3_fail_iff_attempts_exhausted_witness :
    defineHandler 5 100
      [⟨RawMeta.wellFormed (JVal.obj [("attempt", JVal.num 5)]), none⟩] =
      .ok ⟨false, true, none⟩ :=
  (C3_fail_iff_attempts_exhausted 5 100
    [⟨RawMeta.wellFormed (JVal.obj [("attempt", JVal.num 5)]), none⟩]
    ⟨RawMeta.wellFormed (JVal.obj [("attempt", JVal.num 5)]), none⟩ 5 rfl rfl rfl
    (by
      intro v hv
      rw [show getKey (parse_metadata
        (RawMeta.wellFormed (JVal.obj [("attempt", JVal.num 5)]))) "exp" = none from rfl] at hv
      cases hv)).1 (by omega)

/-- Counterexample to claim C2: with no phone number on the user attributes
(and an empty session), the Create handler does raise, but only after the
OTP secret 123456 has been generated and placed in the
privateChallengeParameters of the response — contradicting the claim that no
secret is generated or placed anywhere prior to the failure. -/
theorem C2_counterexample :
    createHandler 300 1000 false "123456" [] none true =
      (⟨some [("answer", "123456"), ("exp", "1300"), ("attempt", "1")],
        some (1300, 1), some [("deliveryMedium", "SMS")], []⟩,
       some PyErr.runtimeError) := rfl

/-- Claim C2 as amended: when the phone number is absent or strips to the
empty string (and the prior-attempt metadata yields a well-typed attempt
counter), the Create handler raises RuntimeError and sends no SMS; however
the OTP secret has already been generated and placed in the
privateChallengeParameters (and the attempt metadata and public parameters
have been written) before the failure. -/
theorem C2_phone_missing_raises_after_secret (ttl now : Int) (devEcho : Bool)
    (otp : String) (session : List AttemptRecord) (phoneAttr : Option String)
    (snsOk : Bool) (prev : Int)
    (hatt : pyInt ((getKey (lastMetaOf session) "attempt").getD (JVal.num 0)) = .ok prev)
    (hphone : (normalizePhone phoneAttr).getD "" = "") :
    createHandler ttl now devEcho otp session phoneAttr snsOk =
      (⟨some [("answer", otp), ("exp", intToStr (now + ttl)), ("attempt", intToStr (prev + 1))],
        some (now + ttl, prev + 1),
        some ([("deliveryMedium", "SMS")] ++ if devEcho then [("dev_otp", otp)] else []),
        []⟩, some PyErr.runtimeError) := by
  unfold createHandler
  rw [hatt]
  cases hp : normalizePhone phoneAttr with
  | none => simp
  | some p =>
    have hpe : p = "" := by rw [hp] at hphone; simpa using hphone
    simp [hpe]

/-- Witness for the amended C2 at a whitespace-only phone number. -/
theorem C2_phone_missing_raises_after_secret_witness :
    createHandler 60 500 true "654321" [] (some "   ") false =
      (⟨some [("answer", "654321"), ("exp", "560"), ("attempt", "1")],
        some (560, 1),
        some ([("deliveryMedium", "SMS")] ++ if true then [("dev_otp", "654321")] else []),
        []⟩, some PyErr.runtimeError) :=
  C2_phone_missing_raises_after_secret 60 500 true "654321" [] (some "   ") false 0
    rfl (by decide)

/-- The publicChallengeParameters slot of the Create handler state: absent
when the attempt counter of the prior metadata does not coerce to an int,
and otherwise the delivery medium plus, only under dev echo, the dev_otp. -/
theorem createHandler_publicParams (ttl now : Int) (devEcho : Bool) (otp : String)
    (session : List AttemptRecord) (phoneAttr : Option String) (snsOk : Bool) :
    (createHandler ttl now devEcho otp session phoneAttr snsOk).1.publicChallengeParameters =
      match pyInt ((getKey (lastMetaOf session) "attempt").getD (JVal.num 0)) with
      | .error _ => none
      | .ok _ =>
        some ([("deliveryMedium", "SMS")] ++ if devEcho then [("dev_otp", otp)] else []) := by
  unfold createHandler
  cases pyInt ((getKey (lastMetaOf session) "attempt").getD (JVal.num 0)) with
  | error e => rfl
  | ok prev =>
    cases hp : normalizePhone phoneAttr with
    | none => rfl
    | some p =>
      by_cases hpe : p = ""
      · simp [hpe]
      · by_cases hs : snsOk = true
        · simp [hpe, hs]
        · simp [hpe, hs]

/-- Claim C7: with the dev-echo flag disabled, whenever the Create handler
writes publicChallengeParameters they consist of the delivery medium only —
the OTP never appears — and the public parameters do not depend on the
generated OTP: two runs differing only in the OTP write identical public
parameters. -/
theorem C7_public_params_independent_of_secret (ttl now : Int) (otp : String)
    (session : List AttemptRecord) (phoneAttr : Option String) (snsOk : Bool) :
    ((createHandler ttl now false otp session phoneAttr snsOk).1.publicChallengeParameters = none ∨
     (createHandler ttl now false otp session phoneAttr snsOk).1.publicChallengeParameters =
       some [("deliveryMedium", "SMS")]) ∧
    ∀ otp2 : String,
      (createHandler ttl now false otp session phoneAttr snsOk).1.publicChallengeParameters =
        (createHandler ttl now false otp2 session phoneAttr snsOk).1.publicChallengeParameters := by
  constructor
  · rw [createHandler_publicParams]
    cases pyInt ((getKey (lastMetaOf session) "attempt").getD (JVal.num 0)) with
    | error e => exact Or.inl rfl
    | ok prev => exact Or.inr rfl
  · intro otp2
    rw [createHandler_publicParams, createHandler_publicParams]
    cases pyInt ((getKey (lastMetaOf session) "attempt").getD (JVal.num 0)) with
    | error e => rfl
    | ok prev => rfl

/-- Counterexample to claim C6: well-formed metadata whose attempt field is
the string "x" makes the Define handler raise (the Python comparison of a
str attempt_number against the int max_attempts is a TypeError), so
malformed metadata content can crash the stage even though the decode
itself is total. -/
theorem C6_counterexample :
    defineHandler 5 100
      [⟨RawMeta.wellFormed (JVal.obj [("attempt", JVal.str "x")]), none⟩] =
      .error PyErr.typeError := rfl

/-- If the decoded metadata of the last session entry has integer-or-absent
attempt and exp fields, the Define handler completes with some decision. -/
theorem defineHandler_completes (maxAttempts now : Int) (session : List AttemptRecord)
    (last : AttemptRecord) (hlast : session.getLast? = some last)
    (ha : ∃ a : Int, attemptNumberOf session (parse_metadata last.challengeMetadata) = JVal.num a)
    (he : numOrAbsent (getKey (parse_metadata last.challengeMetadata) "exp")) :
    ∃ r, defineHandler maxAttempts now session = .ok r := by
  obtain ⟨a, ha⟩ := ha
  unfold defineHandler
  rw [hlast]
  cases htr : truthyOpt last.challengeResult with
  | true => exact ⟨⟨true, false, none⟩, by simp [htr]⟩
  | false =>
    simp only [htr, Bool.false_eq_true, if_false, ha, pyGe]
    by_cases hge : a ≥ maxAttempts
    · exact ⟨⟨false, true, none⟩, by simp [hge]⟩
    · rcases he with he | ⟨n, he⟩
      · exact ⟨⟨false, false, some "CUSTOM_CHALLENGE"⟩, by simp [hge, he]⟩
      · by_cases hn : truthy (JVal.num n) = true
        · by_cases hnow : now > n
          · exact ⟨⟨false, true, none⟩, by simp [hge, he, hn, pyInt, hnow]⟩
          · exact ⟨⟨false, false, some "CUSTOM_CHALLENGE"⟩,
              by simp [hge, he, hn, pyInt, hnow]⟩
        · exact ⟨⟨false, false, some "CUSTOM_CHALLENGE"⟩, by simp [hge, he, hn]⟩

/-- Claim C6 as amended: the metadata decode itself never raises, and both
the Define handler and the Create handler (given a valid phone number and a
successful SNS publish) complete without raising for every session whose
last-record metadata carries integer-valued or absent exp and attempt
fields; metadata whose attempt or exp fields hold values of other types
(for instance strings) can make the handlers raise. -/
theorem C6_handlers_complete_on_numeric_metadata
    (maxAttempts ttl createNow defineNow : Int) (devEcho : Bool)
    (otp : String) (session : List AttemptRecord) (p : String)
    (hatt : numOrAbsent (getKey (lastMetaOf session) "attempt"))
    (hexp : numOrAbsent (getKey (lastMetaOf session) "exp"))
    (hp : pyStrip p ≠ "") :
    (∃ r, defineHandler maxAttempts defineNow session = .ok r) ∧
    (createHandler ttl createNow devEcho otp session (some p) true).2 = none := by
  constructor
  · cases hlast : session.getLast? with
    | none => exact ⟨_, by unfold defineHandler; rw [hlast]⟩
    | some last =>
      have hmd : lastMetaOf session = parse_metadata last.challengeMetadata := by
        unfold lastMetaOf; rw [hlast]
      rw [hmd] at hatt hexp
      refine defineHandler_completes maxAttempts defineNow session last hlast ?_ hexp
      unfold attemptNumberOf
      rcases hatt with hatt | ⟨n, hatt⟩
      · exact ⟨session.length, by rw [hatt]⟩
      · rw [hatt]
        by_cases hn : truthy (JVal.num n) = true
        · exact ⟨n, by simp [hn]⟩
        · exact ⟨session.length, by simp [hn]⟩
  · unfold createHandler
    have hok : ∃ m : Int,
        pyInt ((getKey (lastMetaOf session) "attempt").getD (JVal.num 0)) = .ok m := by
      rcases hatt with hatt | ⟨n, hatt⟩
      · exact ⟨0, by rw [hatt]; rfl⟩
      · exact ⟨n, by rw [hatt]; rfl⟩
    obtain ⟨m, hok⟩ := hok
    rw [hok]
    simp [normalizePhone, hp]

/-- Witness for the amended C6: one prior attempt with numeric metadata, a
valid phone number and a successful publish — Define continues and Create
raises nothing. -/
theorem C6_handlers_complete_on_numeric_metadata_witness :
    (∃ r, defineHandler 5 100
        [⟨RawMeta.wellFormed (JVal.obj [("attempt", JVal.num 1), ("exp", JVal.num 200)]),
          none⟩] = .ok r) ∧
    (createHandler 300 100 false "111222"
        [⟨RawMeta.wellFormed (JVal.obj [("attempt", JVal.num 1), ("exp", JVal.num 200)]),
          none⟩] (some "+15551230000") true).2 = none :=
  C6_handlers_complete_on_numeric_metadata 5 300 100 100 false "111222"
    [⟨RawMeta.wellFormed (JVal.obj [("attempt", JVal.num 1), ("exp", JVal.num 200)]),
      none⟩] "+15551230000"
    (Or.inr ⟨1, rfl⟩) (Or.inr ⟨200, rfl⟩) (by decide)

/-- Counterexample to claim C4: an expiry of "0" parses to the integer 0,
which is strictly less than now = 5, yet the Verify handler accepts a
matching answer — Python truthiness skips the expiry comparison when the
parsed expiry is the falsy integer 0. -/
theorem C4_counterexample :
    verifyHandler 5 (some [("answer", "1"), ("exp", "0")]) RawMeta.absent (some "1") =
      true := rfl

/-- A JSON value whose Python int coercion yields a nonzero integer is
truthy. -/
theorem truthy_of_pyInt_ne_zero (v : JVal) (e : Int)
    (h : pyInt v = .ok e) (hne : e ≠ 0) : truthy v = true := by
  cases v with
  | num n =>
    simp only [pyInt, Except.ok.injEq] at h
    subst h
    simp [truthy, hne]
  | bool b =>
    cases b with
    | true => rfl
    | false =>
      simp only [pyInt, Except.ok.injEq] at h
      exact absurd h.symm hne
  | str s =>
    by_cases hs : s = ""
    · subst hs
      rw [show pyInt (JVal.str "") = .error PyErr.valueError from rfl] at h
      cases h
    · simp [truthy, hs]
  | null => cases h
  | arr xs => cases h
  | obj fs => cases h

/-- Claim C4 as amended: whenever the effective expiry value (private
parameters first, metadata as fallback) coerces to a nonzero integer
strictly below the current time, the Verify handler reports the answer
incorrect, whatever the supplied answer; the nonzero proviso is forced by
the counterexample, since a parsed expiry of exactly 0 is falsy in Python
and the expiry check is skipped for it. -/
theorem C4_expired_never_correct (now : Int)
    (privateParams : Option (List (String × String))) (md : RawMeta)
    (ans : Option String) (v : JVal) (e : Int)
    (hv : effectiveExp (privateParams.getD []) (parse_metadata md) = some v)
    (he : pyInt v = .ok e) (hne : e ≠ 0) (hlt : e < now) :
    verifyHandler now privateParams md ans = false := by
  unfold verifyHandler
  cases ha : getS (privateParams.getD []) "answer" with
  | none => simp [ha]
  | some expected =>
    have htr := truthy_of_pyInt_ne_zero v e he hne
    simp [ha, hv, htr, he, hne, hlt]

/-- Witness for the amended C4 at a concrete expired challenge: expiry 50,
now 100, matching answer — still incorrect. -/
theorem C4_expired_never_correct_witness :
    verifyHandler 100 (some [("answer", "1"), ("exp", "50")]) RawMeta.absent (some "1") =
      false :=
  C4_expired_never_correct 100 (some [("answer", "1"), ("exp", "50")]) RawMeta.absent
    (some "1") (JVal.str "50") 50 rfl rfl (by decide) (by decide)

/-- Counterexample to claim C8: the private parameters are absent while the
challenge metadata carries an unexpired answer field matching the supplied
answer; the claimed metadata fallback would verify it, but the handler
reports incorrect — the expected answer is read only from the private
parameters. -/
theorem C8_counterexample :
    verifyHandler 5 none
      (RawMeta.wellFormed (JVal.obj [("answer", JVal.str "1"), ("exp", JVal.num 99)]))
      (some "1") = false := rfl

/-- Claim C8 as amended: the expected secret is taken solely from the
answer entry of the private challenge parameters — there is no metadata
fallback for it — and whenever that entry is absent the handler returns
answerCorrect = false regardless of the metadata and the supplied answer.
(Only the expiry value falls back from private parameters to metadata.) -/
theorem C8_no_metadata_fallback_for_answer (now : Int)
    (privateParams : Option (List (String × String))) (md : RawMeta)
    (ans : Option String)
    (h : getS (privateParams.getD []) "answer" = none) :
    verifyHandler now privateParams md ans = false := by
  unfold verifyHandler
  simp [h]

/-- Witness for the amended C8: private parameters carrying no answer entry,
metadata carrying a matching answer — still incorrect. -/
theorem C8_no_metadata_fallback_for_answer_witness :
    verifyHandler 7 (some [("exp", "99")])
      (RawMeta.wellFormed (JVal.obj [("answer", JVal.str "4")])) (some "4") = false :=
  C8_no_metadata_fallback_for_answer 7 (some [("exp", "99")])
    (RawMeta.wellFormed (JVal.obj [("answer", JVal.str "4")])) (some "4") rfl

/-- Claim C9: a federated exchange whose Google token verifies but carries
an issuer outside the allow-list is answered with the 401 Invalid Google ID
token error response, and no Cognito call of any kind is performed — the
rejection happens before the identity-provider phase, whatever that phase
would do. -/
theorem C9_untrusted_issuer_rejected_before_idp
    (cognitoPhase : List (String × JVal) → HttpResponse × List CogCall)
    (fields : List (String × JVal)) (tok gcid upid cid : String)
    (claims : List (String × JVal))
    (htok : getKey fields "id_token" = some (JVal.str tok))
    (htne : pyStrip tok ≠ "")
    (hg : gcid ≠ "") (hu : upid ≠ "") (hc : cid ≠ "")
    (hiss : issuerAllowed (getKey claims "iss") = false) :
    authGoogleHandler cognitoPhase (RawMeta.wellFormed (JVal.obj fields))
      (some gcid) (some upid) (some cid) (.ok claims) =
      .ok (errorResponse "Invalid Google ID token" 401, []) := by
  have htnn : tok ≠ "" := by
    intro hh
    subst hh
    exact htne rfl
  unfold authGoogleHandler
  simp only [htok]
  have htv : truthy (JVal.str tok) = true := by simp [truthy, htnn]
  simp only [htv, if_true]
  unfold verify_id_token
  simp [htne, hg, hu, hc, hiss]

/-- Witness for C9: a syntactically fine token whose verified claims name
the issuer evil.example, fed to a Cognito phase that would immediately
perform a user lookup — the handler still answers 401 with no calls. -/
theorem C9_untrusted_issuer_rejected_before_idp_witness :
    authGoogleHandler (fun _ => (⟨200, JVal.null⟩, [CogCall.adminGetUser]))
      (RawMeta.wellFormed (JVal.obj [("id_token", JVal.str "tok")]))
      (some "gcid") (some "upid") (some "cid")
      (.ok [("iss", JVal.str "https://evil.example"), ("sub", JVal.str "42")]) =
      .ok (errorResponse "Invalid Google ID token" 401, []) :=
  C9_untrusted_issuer_rejected_before_idp
    (fun _ => (⟨200, JVal.null⟩, [CogCall.adminGetUser]))
    [("id_token", JVal.str "tok")] "tok" "gcid" "upid" "cid"
    [("iss", JVal.str "https://evil.example"), ("sub", JVal.str "42")]
    rfl (by decide) (by decide) (by decide) (by decide) rfl
